import Mathlib

/-!
Verification development for the SMA inverter SDK native wrapper
(src/inverter_wrapper.cc).  The native YASDI SDK is modelled as an
oracle structure whose fields answer each native call; the wrapper
operations are translated directly from the C++ code, returning the
JavaScript-visible result (Except models a thrown JS exception), the
updated session state, and the ordered trace of native calls issued.
-/

namespace SMA

/-- YASDI status codes, as opaque distinct symbols (the numeric values
live in the external SDK headers; the wrapper only compares against the
named constants and has a default case, modelled by YE_OTHER). -/
inductive YStatus where
  | YE_OK
  | INVALID_HANDLE
  | YE_SHUTDOWN
  | YE_TIMEOUT
  | YE_VALUE_NOT_VALID
  | YE_NO_ACCESS_RIGHTS
  | YE_DEV_DETECT_IN_PROGRESS
  | YE_NOT_ALL_DEVS_FOUND
  | YE_OTHER (code : Int)
deriving DecidableEq

/-- Channel enumeration kind passed to GetChannelHandlesEx. -/
inductive ChanKind where
  | SPOTCHANNELS
  | ALLCHANNELS
deriving DecidableEq

/-- One native SDK call, recorded in the order the wrapper issues it. -/
inductive NCall where
  | masterInit (path : String)
  | getDriver
  | getDriverName (d : Nat)
  | driverOnline (d : Nat)
  | driverOffline (d : Nat)
  | masterShutdown
  | deviceDetection (n : Int)
  | getDeviceHandles
  | getDeviceName (d : Nat)
  | getChannelHandles (dev : Nat) (k : ChanKind)
  | getChannelName (ch : Nat)
  | getChannelUnit (ch : Nat)
  | getChannelValue (ch dev maxAge : Nat)
  | getChannelValRange (ch : Nat)
  | writeChannel (ch dev : Nat) (v : Rat)
deriving DecidableEq

/-- Oracle for the native YASDI layer: each field answers one native
entry point.  Doubles are modelled as rationals; a fallible read is an
Option (none models a non-YE_OK native return). -/
structure NativeEnv where
  masterInitCount : String → Nat
  masterGetDriver : List Nat
  driverName : Nat → String
  setDriverOnlineOk : Nat → Bool
  setDriverOfflineOk : Nat → Bool
  doStartDeviceDetection : Int → YStatus
  deviceHandles : List Nat
  deviceName : Nat → String
  channelHandles : Nat → ChanKind → List Nat
  channelName : Nat → Option String
  channelUnit : Nat → String
  channelValue : Nat → Nat → Nat → Option (Rat × String)
  channelValRange : Nat → Option (Rat × Rat)
  setChannelValueStatus : Nat → Nat → Rat → YStatus

/-- Member state of the InverterWrapper object: the initialized flag,
the retained driver handles (the drivers array together with
driver_count), and the debug verbosity. -/
structure SessionState where
  initFlag : Bool
  drivers : List Nat
  debugLevel : Int
deriving DecidableEq

/-- Outcome of one public wrapper operation: the JS-visible result
(error models ThrowAsJavaScriptException), the updated member state and
the native calls issued. -/
structure OpOut (α : Type) where
  res : Except String α
  st : SessionState
  calls : List NCall

/-- One channel record produced by fetch_channel_data. -/
structure ChannelData where
  name : String
  units : String
  value : String
  numericValue : Rat
deriving DecidableEq

/-- Result object of GetChannelInfo. -/
structure ChannelInfo where
  handle : Nat
  name : String
  minValue : Rat
  maxValue : Rat
  units : String
deriving DecidableEq

/-- Result object of SetChannelValue. -/
structure SetResult where
  success : Bool
  code : YStatus
  error : Option String
  validRange : Option (Rat × Rat)
deriving DecidableEq

namespace InverterWrapper

/-- InverterWrapper::Initialize: runs yasdiMasterInitialize, fails if no
driver was enumerated, re-reads the driver list (capacity 10), switches
every driver online, fails if none came online, else sets the
initialized flag. -/
def Initialize (env : NativeEnv) (st : SessionState) (config_path : String) : OpOut Bool :=
  let driver_count := env.masterInitCount config_path
  if driver_count = 0 then
    { res := .error "No YASDI drivers found"
    , st := { st with drivers := [] }
    , calls := [NCall.masterInit config_path] }
  else
    let drivers := env.masterGetDriver.take 10
    let loopCalls := drivers.flatMap (fun d => [NCall.getDriverName d, NCall.driverOnline d])
    let any_driver_online := drivers.any (fun d => env.setDriverOnlineOk d)
    if any_driver_online then
      { res := .ok true
      , st := { st with initFlag := true, drivers := drivers }
      , calls := NCall.masterInit config_path :: NCall.getDriver :: loopCalls }
    else
      { res := .error "No drivers could be set online"
      , st := { st with drivers := drivers }
      , calls := NCall.masterInit config_path :: NCall.getDriver :: loopCalls }

/-- InverterWrapper::detect_devices: maps the blocking native detection
status to a boolean. -/
def detect_devices (env : NativeEnv) (device_count : Int) : Bool :=
  match env.doStartDeviceDetection device_count with
  | .YE_OK => true
  | .YE_DEV_DETECT_IN_PROGRESS => false
  | .YE_NOT_ALL_DEVS_FOUND => false
  | _ => false

/-- InverterWrapper::DetectDevices: precondition check, optional count
argument defaulting to 1, then the blocking detection call. -/
def DetectDevices (env : NativeEnv) (st : SessionState) (arg : Option Int) : OpOut Bool :=
  if st.initFlag = false then
    { res := .error "YASDI not initialized. Call initialize() first", st := st, calls := [] }
  else
    let device_count := arg.getD 1
    { res := .ok (detect_devices env device_count)
    , st := st
    , calls := [NCall.deviceDetection device_count] }

/-- Find-first-space-and-replace-it-with-underscore, one step of the
C++ loop (std::string::find of " " then replace(pos, 1, "_")); none
when the string holds no space. -/
def replaceFirstSpace : List Char → Option (List Char)
  | [] => none
  | c :: rest =>
    if c = ' ' then some ('_' :: rest)
    else (replaceFirstSpace rest).map (fun t => c :: t)

/-- The C++ normalization loop: while the name contains a space,
replace the first space with an underscore. -/
def normalizeChars (s : List Char) : List Char :=
  match h : replaceFirstSpace s with
  | none => s
  | some t => normalizeChars t
termination_by s.count ' '
decreasing_by
  induction s generalizing t with
  | nil => simp [replaceFirstSpace] at h
  | cons c rest ih =>
    by_cases hc : c = ' '
    · subst hc
      simp [replaceFirstSpace] at h
      subst h
      have hne : ('_' : Char) ≠ ' ' := by decide
      simp [List.count_cons, hne]
    · simp [replaceFirstSpace, hc] at h
      obtain ⟨u, hu, rfl⟩ := h
      have hlt := ih u hu
      simpa [List.count_cons, hc] using hlt

/-- Device-name normalization as performed in get_device_map. -/
def normalizeDeviceName (s : String) : String :=
  String.mk (normalizeChars s.data)

/-- Ordered insert-or-assign, modelling std::map operator[] assignment
(keys kept sorted, an existing key is overwritten). -/
def mapInsert : List (Nat × String) → Nat → String → List (Nat × String)
  | [], k, v => [(k, v)]
  | (k1, v1) :: rest, k, v =>
    if k < k1 then (k, v) :: (k1, v1) :: rest
    else if k = k1 then (k, v) :: rest
    else (k1, v1) :: mapInsert rest k v

/-- InverterWrapper::get_device_map: enumerate device handles (capacity
50), read and normalize each name, collect into the ordered map. -/
def get_device_map (env : NativeEnv) : List (Nat × String) :=
  (env.deviceHandles.take 50).foldl
    (fun m d => mapInsert m d (normalizeDeviceName (env.deviceName d))) []

/-- InverterWrapper::GetDevices: precondition check then the device
map, returned as the ordered list of handle/name pairs. -/
def GetDevices (env : NativeEnv) (st : SessionState) : OpOut (List (Nat × String)) :=
  if st.initFlag = false then
    { res := .error "YASDI not initialized. Call initialize() first", st := st, calls := [] }
  else
    { res := .ok (get_device_map env)
    , st := st
    , calls := NCall.getDeviceHandles :: (env.deviceHandles.take 50).map NCall.getDeviceName }

/-- Per-channel loop of fetch_channel_data: read the name (skip the
channel on failure), the unit, then the value with max age 5 (skip the
channel on failure); returns the collected records and the native-call
trace. -/
def fetchLoop (env : NativeEnv) (device_handle : Nat) : List Nat → List ChannelData × List NCall
  | [] => ([], [])
  | ch :: rest =>
    let r := fetchLoop env device_handle rest
    match env.channelName ch with
    | none => (r.1, NCall.getChannelName ch :: r.2)
    | some nm =>
      match env.channelValue ch device_handle 5 with
      | none =>
        (r.1, NCall.getChannelName ch :: NCall.getChannelUnit ch ::
              NCall.getChannelValue ch device_handle 5 :: r.2)
      | some (dv, tv) =>
        ({ name := nm, units := env.channelUnit ch, value := tv, numericValue := dv } :: r.1,
         NCall.getChannelName ch :: NCall.getChannelUnit ch ::
           NCall.getChannelValue ch device_handle 5 :: r.2)

/-- InverterWrapper::fetch_channel_data: enumerate spot channels
(capacity 500), bail out empty when fewer than one handle comes back,
else run the per-channel loop. -/
def fetch_channel_data (env : NativeEnv) (device_handle : Nat) : List ChannelData × List NCall :=
  let channels := (env.channelHandles device_handle ChanKind.SPOTCHANNELS).take 500
  if channels.length < 1 then
    ([], [NCall.getChannelHandles device_handle ChanKind.SPOTCHANNELS])
  else
    let r := fetchLoop env device_handle channels
    (r.1, NCall.getChannelHandles device_handle ChanKind.SPOTCHANNELS :: r.2)

/-- InverterWrapper::GetDeviceData: precondition check, then the bulk
channel poll for the given device handle. -/
def GetDeviceData (env : NativeEnv) (st : SessionState) (device_handle : Nat) :
    OpOut (List ChannelData) :=
  if st.initFlag = false then
    { res := .error "YASDI not initialized. Call initialize() first", st := st, calls := [] }
  else
    let r := fetch_channel_data env device_handle
    { res := .ok r.1, st := st, calls := r.2 }

/-- Scan loop of find_channel_handle: first channel whose name read
succeeds and equals the requested name exactly; 0 when none does. -/
def findLoop (env : NativeEnv) (channel_name : String) : List Nat → Nat × List NCall
  | [] => (0, [])
  | ch :: rest =>
    match env.channelName ch with
    | some nm =>
      if channel_name = nm then (ch, [NCall.getChannelName ch])
      else
        let r := findLoop env channel_name rest
        (r.1, NCall.getChannelName ch :: r.2)
    | none =>
      let r := findLoop env channel_name rest
      (r.1, NCall.getChannelName ch :: r.2)

/-- InverterWrapper::find_channel_handle: enumerate ALL channels
(capacity 500); 0 when fewer than one handle comes back, else the scan
loop. -/
def find_channel_handle (env : NativeEnv) (device_handle : Nat) (channel_name : String) :
    Nat × List NCall :=
  let channels := (env.channelHandles device_handle ChanKind.ALLCHANNELS).take 500
  if channels.length < 1 then
    (0, [NCall.getChannelHandles device_handle ChanKind.ALLCHANNELS])
  else
    let r := findLoop env channel_name channels
    (r.1, NCall.getChannelHandles device_handle ChanKind.ALLCHANNELS :: r.2)

/-- InverterWrapper::GetChannelInfo: precondition check, channel
lookup, range read (distinct failure), unit read, result object. -/
def GetChannelInfo (env : NativeEnv) (st : SessionState) (device_handle : Nat)
    (channel_name : String) : OpOut ChannelInfo :=
  if st.initFlag = false then
    { res := .error "YASDI not initialized. Call initialize() first", st := st, calls := [] }
  else
    let fc := find_channel_handle env device_handle channel_name
    if fc.1 = 0 then
      { res := .error "Channel not found", st := st, calls := fc.2 }
    else
      match env.channelValRange fc.1 with
      | none =>
        { res := .error "Failed to get channel value range"
        , st := st
        , calls := fc.2 ++ [NCall.getChannelValRange fc.1] }
      | some (min_value, max_value) =>
        { res := .ok { handle := fc.1, name := channel_name, minValue := min_value
                     , maxValue := max_value, units := env.channelUnit fc.1 }
        , st := st
        , calls := fc.2 ++ [NCall.getChannelValRange fc.1, NCall.getChannelUnit fc.1] }

/-- Common tail of SetChannelValue once the native write is issued: the
raw status is echoed in code, success is exactly YE_OK, and each named
failure status gets its distinct message, anything else the unknown
message. -/
def set_write (env : NativeEnv) (channel_handle device_handle : Nat) (value : Rat) : SetResult :=
  let set_result := env.setChannelValueStatus channel_handle device_handle value
  let error_message : String :=
    match set_result with
    | .INVALID_HANDLE => "Invalid channel handle"
    | .YE_SHUTDOWN => "YASDI is in shutdown mode"
    | .YE_TIMEOUT => "Device did not respond (timeout)"
    | .YE_VALUE_NOT_VALID => "Channel value not within valid range"
    | .YE_NO_ACCESS_RIGHTS => "Not enough access rights to write to channel"
    | _ => "Unknown error"
  { success := decide (set_result = YStatus.YE_OK)
  , code := set_result
  , error := if set_result = YStatus.YE_OK then none else some error_message
  , validRange := none }

/-- InverterWrapper::SetChannelValue: precondition check, channel
lookup, local range pre-check short-circuiting the native write on an
out-of-range value, else the native write with status translation. -/
def SetChannelValue (env : NativeEnv) (st : SessionState) (device_handle : Nat)
    (channel_name : String) (value : Rat) : OpOut SetResult :=
  if st.initFlag = false then
    { res := .error "YASDI not initialized. Call initialize() first", st := st, calls := [] }
  else
    let fc := find_channel_handle env device_handle channel_name
    if fc.1 = 0 then
      { res := .error "Channel not found", st := st, calls := fc.2 }
    else
      match env.channelValRange fc.1 with
      | some (min_value, max_value) =>
        if value < min_value ∨ value > max_value then
          { res := .ok { success := false, code := YStatus.YE_VALUE_NOT_VALID
                       , error := some "Value out of range"
                       , validRange := some (min_value, max_value) }
          , st := st
          , calls := fc.2 ++ [NCall.getChannelValRange fc.1] }
        else
          { res := .ok (set_write env fc.1 device_handle value)
          , st := st
          , calls := fc.2 ++ [NCall.getChannelValRange fc.1,
                              NCall.writeChannel fc.1 device_handle value] }
      | none =>
        { res := .ok (set_write env fc.1 device_handle value)
        , st := st
        , calls := fc.2 ++ [NCall.getChannelValRange fc.1,
                            NCall.writeChannel fc.1 device_handle value] }

/-- InverterWrapper::Shutdown: immediate success when not initialized;
else set every retained driver offline (return values ignored), tear
down the master layer, clear the flag. -/
def Shutdown (env : NativeEnv) (st : SessionState) : OpOut Bool :=
  if st.initFlag = false then
    { res := .ok true, st := st, calls := [] }
  else
    { res := .ok true
    , st := { st with initFlag := false }
    , calls := st.drivers.map NCall.driverOffline ++ [NCall.masterShutdown] }

end InverterWrapper

/-- A concrete native environment: one driver, one device with a space
in its raw name, one channel named Pac with range [0, 100]; the native
write answers a timeout status. -/
def envW : NativeEnv where
  masterInitCount := fun _ => 1
  masterGetDriver := [3]
  driverName := fun _ => "RS485"
  setDriverOnlineOk := fun _ => true
  setDriverOfflineOk := fun _ => true
  doStartDeviceDetection := fun _ => YStatus.YE_OK
  deviceHandles := [1]
  deviceName := fun _ => "WR46 012"
  channelHandles := fun _ _ => [7]
  channelName := fun ch => if ch = 7 then some "Pac" else none
  channelUnit := fun _ => "W"
  channelValue := fun _ _ _ => some (42, "42")
  channelValRange := fun _ => some (0, 100)
  setChannelValueStatus := fun _ _ _ => YStatus.YE_TIMEOUT

/-- A concrete environment with two spot channels where the value read
of the second one fails. -/
def envTwo : NativeEnv where
  masterInitCount := fun _ => 1
  masterGetDriver := [3]
  driverName := fun _ => "RS485"
  setDriverOnlineOk := fun _ => true
  setDriverOfflineOk := fun _ => true
  doStartDeviceDetection := fun _ => YStatus.YE_OK
  deviceHandles := [1]
  deviceName := fun _ => "WR46 012"
  channelHandles := fun _ _ => [7, 8]
  channelName := fun ch => if ch = 7 then some "Pac" else if ch = 8 then some "Uac" else none
  channelUnit := fun _ => "W"
  channelValue := fun ch _ _ => if ch = 8 then none else some (42, "42")
  channelValRange := fun _ => some (0, 100)
  setChannelValueStatus := fun _ _ _ => YStatus.YE_OK

/-- A concrete environment whose channel enumeration comes back empty
(a bus-level enumeration failure). -/
def envEmpty : NativeEnv where
  masterInitCount := fun _ => 1
  masterGetDriver := [3]
  driverName := fun _ => "RS485"
  setDriverOnlineOk := fun _ => true
  setDriverOfflineOk := fun _ => true
  doStartDeviceDetection := fun _ => YStatus.YE_OK
  deviceHandles := [1]
  deviceName := fun _ => "WR46 012"
  channelHandles := fun _ _ => []
  channelName := fun _ => none
  channelUnit := fun _ => "W"
  channelValue := fun _ _ _ => none
  channelValRange := fun _ => none
  setChannelValueStatus := fun _ _ _ => YStatus.YE_OK

/-- Session state before initialization. -/
def st0 : SessionState := { initFlag := false, drivers := [], debugLevel := 0 }

/-- Session state after a successful initialization retaining two
drivers. -/
def st1 : SessionState := { initFlag := true, drivers := [3, 4], debugLevel := 0 }

open InverterWrapper

theorem findLoop_fst_no_match (env : NativeEnv) (nm : String) (l : List Nat)
    (h : ∀ ch ∈ l, env.channelName ch ≠ some nm) :
    (findLoop env nm l).1 = 0 := by
  induction l with
  | nil => rfl
  | cons c rest ih =>
    have hc := h c (by simp)
    have hrest : ∀ ch ∈ rest, env.channelName ch ≠ some nm :=
      fun ch hch => h ch (by simp [hch])
    rcases he : env.channelName c with _ | nm2
    · simp [findLoop, he, ih hrest]
    · have hne : ¬ nm = nm2 := by
        rintro rfl
        exact hc he
      simp [findLoop, he, hne, ih hrest]

theorem findLoop_fst_first (env : NativeEnv) (nm : String) (l1 : List Nat) (c : Nat)
    (l2 : List Nat) (h1 : ∀ ch ∈ l1, env.channelName ch ≠ some nm)
    (hc : env.channelName c = some nm) :
    (findLoop env nm (l1 ++ c :: l2)).1 = c := by
  induction l1 with
  | nil => simp [findLoop, hc]
  | cons a t ih =>
    have ha := h1 a (by simp)
    have ht : ∀ ch ∈ t, env.channelName ch ≠ some nm :=
      fun ch hch => h1 ch (by simp [hch])
    rcases he : env.channelName a with _ | nm2
    · simp [findLoop, he, ih ht]
    · have hne : ¬ nm = nm2 := by
        rintro rfl
        exact ha he
      simp [findLoop, he, hne, ih ht]

theorem findLoop_calls_shape (env : NativeEnv) (nm : String) (l : List Nat) :
    ∀ x ∈ (findLoop env nm l).2, ∃ ch, x = NCall.getChannelName ch := by
  induction l with
  | nil => simp [findLoop]
  | cons c rest ih =>
    intro x hx
    rcases he : env.channelName c with _ | nm2
    · simp [findLoop, he] at hx
      rcases hx with hx | hx
      · exact ⟨c, hx⟩
      · exact ih x hx
    · by_cases heq : nm = nm2
      · simp [findLoop, he, heq] at hx
        exact ⟨c, hx⟩
      · simp [findLoop, he, heq] at hx
        rcases hx with hx | hx
        · exact ⟨c, hx⟩
        · exact ih x hx

theorem find_channel_handle_calls_shape (env : NativeEnv) (dh : Nat) (nm : String) :
    ∀ x ∈ (find_channel_handle env dh nm).2,
      (∃ d k, x = NCall.getChannelHandles d k) ∨ ∃ ch, x = NCall.getChannelName ch := by
  intro x hx
  by_cases hlen : env.channelHandles dh ChanKind.ALLCHANNELS = []
  · simp [find_channel_handle, hlen] at hx
    exact Or.inl ⟨dh, ChanKind.ALLCHANNELS, hx⟩
  · simp [find_channel_handle, hlen] at hx
    rcases hx with hx | hx
    · exact Or.inl ⟨dh, ChanKind.ALLCHANNELS, hx⟩
    · exact Or.inr (findLoop_calls_shape env nm _ x hx)

theorem fetchLoop_fst_append (env : NativeEnv) (dh : Nat) (l1 l2 : List Nat) :
    (fetchLoop env dh (l1 ++ l2)).1 = (fetchLoop env dh l1).1 ++ (fetchLoop env dh l2).1 := by
  induction l1 with
  | nil => simp [fetchLoop]
  | cons c t ih =>
    rcases he : env.channelName c with _ | nm
    · simp [fetchLoop, he, ih]
    · rcases hv : env.channelValue c dh 5 with _ | ⟨dv, tv⟩
      · simp [fetchLoop, he, hv, ih]
      · simp [fetchLoop, he, hv, ih]

theorem fetchLoop_fst_length (env : NativeEnv) (dh : Nat) (l : List Nat)
    (h : ∀ ch ∈ l, (env.channelName ch).isSome = true ∧
      (env.channelValue ch dh 5).isSome = true) :
    (fetchLoop env dh l).1.length = l.length := by
  induction l with
  | nil => rfl
  | cons c t ih =>
    have hc := h c (by simp)
    have ht : ∀ ch ∈ t, (env.channelName ch).isSome = true ∧
        (env.channelValue ch dh 5).isSome = true :=
      fun ch hch => h ch (by simp [hch])
    rcases hn : env.channelName c with _ | nm
    · rw [hn] at hc
      simp at hc
    · rcases hv : env.channelValue c dh 5 with _ | ⟨dv, tv⟩
      · rw [hv] at hc
        simp at hc
      · simp [fetchLoop, hn, hv, ih ht]

theorem fetchLoop_fst_mem_name (env : NativeEnv) (dh : Nat) (l : List Nat)
    (d : ChannelData) (hd : d ∈ (fetchLoop env dh l).1) :
    ∃ ch ∈ l, env.channelName ch = some d.name := by
  induction l with
  | nil => simp [fetchLoop] at hd
  | cons c t ih =>
    rcases he : env.channelName c with _ | nm
    · simp [fetchLoop, he] at hd
      rcases ih hd with ⟨ch, hch, hname⟩
      exact ⟨ch, by simp [hch], hname⟩
    · rcases hv : env.channelValue c dh 5 with _ | ⟨dv, tv⟩
      · simp [fetchLoop, he, hv] at hd
        rcases ih hd with ⟨ch, hch, hname⟩
        exact ⟨ch, by simp [hch], hname⟩
      · simp [fetchLoop, he, hv] at hd
        rcases hd with hd | hd
        · refine ⟨c, by simp, ?_⟩
          rw [he, hd]
        · rcases ih hd with ⟨ch, hch, hname⟩
          exact ⟨ch, by simp [hch], hname⟩

theorem replaceFirstSpace_count (s t : List Char) (h : replaceFirstSpace s = some t) :
    t.count ' ' < s.count ' ' := by
  induction s generalizing t with
  | nil => simp [replaceFirstSpace] at h
  | cons c rest ih =>
    by_cases hc : c = ' '
    · subst hc
      simp [replaceFirstSpace] at h
      subst h
      have hne : ('_' : Char) ≠ ' ' := by decide
      simp [List.count_cons, hne]
    · simp [replaceFirstSpace, hc] at h
      obtain ⟨u, hu, rfl⟩ := h
      have hlt := ih u hu
      simpa [List.count_cons, hc] using hlt

theorem replaceFirstSpace_none (s : List Char) (h : replaceFirstSpace s = none) :
    ∀ c ∈ s, c ≠ ' ' := by
  induction s with
  | nil => simp
  | cons c rest ih =>
    by_cases hc : c = ' '
    · simp [replaceFirstSpace, hc] at h
    · simp [replaceFirstSpace, hc] at h
      intro x hx
      rcases List.mem_cons.mp hx with hx | hx
      · subst hx
        exact hc
      · exact ih h x hx

theorem replaceFirstSpace_map (s t : List Char) (h : replaceFirstSpace s = some t) :
    t.map (fun c => if c = ' ' then '_' else c) =
      s.map (fun c => if c = ' ' then '_' else c) := by
  induction s generalizing t with
  | nil => simp [replaceFirstSpace] at h
  | cons c rest ih =>
    by_cases hc : c = ' '
    · subst hc
      simp [replaceFirstSpace] at h
      subst h
      simp
    · simp [replaceFirstSpace, hc] at h
      obtain ⟨u, hu, rfl⟩ := h
      simp [hc, ih u hu]

theorem normalizeChars_eq_map (s : List Char) :
    normalizeChars s = s.map (fun c => if c = ' ' then '_' else c) := by
  generalize hn : s.count ' ' = n
  induction n using Nat.strong_induction_on generalizing s with
  | _ n ih =>
    rw [normalizeChars]
    split
    · rename_i h
      have hall := replaceFirstSpace_none s h
      have : s.map (fun c => if c = ' ' then '_' else c) = s.map id := by
        apply List.map_congr_left
        intro a ha
        simp [hall a ha]
      rw [this, List.map_id]
    · rename_i t h
      subst hn
      have hlt := replaceFirstSpace_count s t h
      rw [ih (t.count ' ') hlt t rfl, replaceFirstSpace_map s t h]

theorem normalizeDeviceName_eq_map (s : String) :
    normalizeDeviceName s = String.mk (s.data.map (fun c => if c = ' ' then '_' else c)) := by
  unfold normalizeDeviceName
  rw [normalizeChars_eq_map]

theorem mapInsert_mem (m : List (Nat × String)) (k : Nat) (v : String)
    (p : Nat × String) (hp : p ∈ mapInsert m k v) : p ∈ m ∨ p = (k, v) := by
  induction m with
  | nil =>
    simp [mapInsert] at hp
    exact Or.inr hp
  | cons q rest ih =>
    rcases q with ⟨k1, v1⟩
    by_cases h1 : k < k1
    · simp [mapInsert, h1] at hp
      rcases hp with hp | hp | hp
      · exact Or.inr hp
      · exact Or.inl (by simp [hp])
      · exact Or.inl (by simp [hp])
    · by_cases h2 : k = k1
      · simp [mapInsert, h1, h2] at hp
        rcases hp with hp | hp
        · exact Or.inr (by simp [hp, h2])
        · exact Or.inl (by simp [hp])
      · simp [mapInsert, h1, h2] at hp
        rcases hp with hp | hp
        · exact Or.inl (by simp [hp])
        · rcases ih hp with h | h
          · exact Or.inl (by simp [h])
          · exact Or.inr h

theorem get_device_map_val (env : NativeEnv) :
    ∀ p ∈ get_device_map env, p.2 = normalizeDeviceName (env.deviceName p.1) := by
  have main : ∀ (l : List Nat) (m : List (Nat × String)),
      (∀ p ∈ m, p.2 = normalizeDeviceName (env.deviceName p.1)) →
      ∀ p ∈ l.foldl (fun m d => mapInsert m d (normalizeDeviceName (env.deviceName d))) m,
        p.2 = normalizeDeviceName (env.deviceName p.1) := by
    intro l
    induction l with
    | nil =>
      intro m hm p hp
      exact hm p hp
    | cons d t ih =>
      intro m hm p hp
      refine ih _ ?_ p hp
      intro q hq
      rcases mapInsert_mem m d _ q hq with h | h
      · exact hm q h
      · subst h
        rfl
  intro p hp
  exact main _ [] (by simp) p hp

/-- C1: every public channel/device operation (detectDevices,
getDevices, getDeviceData, getChannelInfo, setChannelValue) invoked
while the session initialized flag is false fails with the
not-initialized precondition error, leaves the session state unchanged,
and issues no native SDK call. -/
theorem C1_uninitialized_ops_fail_without_native_calls (env : NativeEnv)
    (st : SessionState) (arg : Option Int) (dh dh2 dh3 : Nat) (cn cn2 : String)
    (v : Rat) (h : st.initFlag = false) :
    InverterWrapper.DetectDevices env st arg =
      { res := .error "YASDI not initialized. Call initialize() first", st := st, calls := [] } ∧
    InverterWrapper.GetDevices env st =
      { res := .error "YASDI not initialized. Call initialize() first", st := st, calls := [] } ∧
    InverterWrapper.GetDeviceData env st dh =
      { res := .error "YASDI not initialized. Call initialize() first", st := st, calls := [] } ∧
    InverterWrapper.GetChannelInfo env st dh2 cn =
      { res := .error "YASDI not initialized. Call initialize() first", st := st, calls := [] } ∧
    InverterWrapper.SetChannelValue env st dh3 cn2 v =
      { res := .error "YASDI not initialized. Call initialize() first", st := st, calls := [] } := by
  refine ⟨?_, ?_, ?_, ?_, ?_⟩ <;>
    simp [InverterWrapper.DetectDevices, InverterWrapper.GetDevices,
      InverterWrapper.GetDeviceData, InverterWrapper.GetChannelInfo,
      InverterWrapper.SetChannelValue, h]

/-- Witness for C1 at a concrete uninitialized session. -/
theorem C1_uninitialized_ops_fail_without_native_calls_witness :
    st0.initFlag = false ∧
    (InverterWrapper.GetDevices envW st0).res =
      Except.error "YASDI not initialized. Call initialize() first" :=
  ⟨rfl, congrArg OpOut.res
    (C1_uninitialized_ops_fail_without_native_calls envW st0 none 1 1 1 "Pac" "Pac" 5 rfl).2.1⟩

/-- C3: shutdown is idempotent: not initialized, it returns success at
once with no native call; initialized, it issues one offline call for
every known driver (whatever the native results are) followed by the
master teardown, clears the flag and returns success; a second shutdown
right after also returns success. -/
theorem C3_shutdown_idempotent (env : NativeEnv) (st : SessionState) :
    (st.initFlag = false → InverterWrapper.Shutdown env st =
      { res := .ok true, st := st, calls := [] }) ∧
    (st.initFlag = true →
      InverterWrapper.Shutdown env st =
        { res := .ok true, st := { st with initFlag := false }
        , calls := st.drivers.map NCall.driverOffline ++ [NCall.masterShutdown] }) ∧
    (InverterWrapper.Shutdown env st).res = .ok true ∧
    (InverterWrapper.Shutdown env (InverterWrapper.Shutdown env st).st).res = .ok true := by
  cases hf : st.initFlag <;>
    simp [InverterWrapper.Shutdown, hf]

/-- Witness for C3 at a concrete initialized session with two
drivers. -/
theorem C3_shutdown_idempotent_witness :
    st1.initFlag = true ∧
    (InverterWrapper.Shutdown envW st1).calls =
      [NCall.driverOffline 3, NCall.driverOffline 4, NCall.masterShutdown] ∧
    (InverterWrapper.Shutdown envW (InverterWrapper.Shutdown envW st1).st).res =
      Except.ok true := by
  have h := C3_shutdown_idempotent envW st1
  exact ⟨rfl, (congrArg OpOut.calls (h.2.1 rfl)).trans rfl, h.2.2.2⟩

/-- C5: detectDevices requests the given expected count (default 1
when no count argument is supplied) from the native detection routine
and maps the native status to a boolean: success to true,
detection-in-progress to false, not-all-devices-found to false, any
other status to false; the result is always a boolean, never a thrown
error. -/
theorem C5_detect_status_mapping (env : NativeEnv) (st : SessionState) (arg : Option Int)
    (h : st.initFlag = true) :
    (InverterWrapper.DetectDevices env st arg).calls =
      [NCall.deviceDetection (arg.getD 1)] ∧
    (arg = none → (InverterWrapper.DetectDevices env st arg).calls =
      [NCall.deviceDetection 1]) ∧
    (env.doStartDeviceDetection (arg.getD 1) = YStatus.YE_OK →
      (InverterWrapper.DetectDevices env st arg).res = .ok true) ∧
    (env.doStartDeviceDetection (arg.getD 1) = YStatus.YE_DEV_DETECT_IN_PROGRESS →
      (InverterWrapper.DetectDevices env st arg).res = .ok false) ∧
    (env.doStartDeviceDetection (arg.getD 1) = YStatus.YE_NOT_ALL_DEVS_FOUND →
      (InverterWrapper.DetectDevices env st arg).res = .ok false) ∧
    (env.doStartDeviceDetection (arg.getD 1) ≠ YStatus.YE_OK →
      env.doStartDeviceDetection (arg.getD 1) ≠ YStatus.YE_DEV_DETECT_IN_PROGRESS →
      env.doStartDeviceDetection (arg.getD 1) ≠ YStatus.YE_NOT_ALL_DEVS_FOUND →
      (InverterWrapper.DetectDevices env st arg).res = .ok false) ∧
    (InverterWrapper.DetectDevices env st arg).res =
      .ok (InverterWrapper.detect_devices env (arg.getD 1)) := by
  refine ⟨?_, ?_, ?_, ?_, ?_, ?_, ?_⟩
  · simp [InverterWrapper.DetectDevices, h]
  · intro ha
    subst ha
    simp [InverterWrapper.DetectDevices, h]
  · intro hs
    simp [InverterWrapper.DetectDevices, InverterWrapper.detect_devices, h, hs]
  · intro hs
    simp [InverterWrapper.DetectDevices, InverterWrapper.detect_devices, h, hs]
  · intro hs
    simp [InverterWrapper.DetectDevices, InverterWrapper.detect_devices, h, hs]
  · intro h1 h2 h3
    simp [InverterWrapper.DetectDevices, h]
    rcases hs : env.doStartDeviceDetection (arg.getD 1) with
      _ | _ | _ | _ | _ | _ | _ | _ | code
    · exact absurd hs h1
    · simp [InverterWrapper.detect_devices, hs]
    · simp [InverterWrapper.detect_devices, hs]
    · simp [InverterWrapper.detect_devices, hs]
    · simp [InverterWrapper.detect_devices, hs]
    · simp [InverterWrapper.detect_devices, hs]
    · exact absurd hs h2
    · exact absurd hs h3
    · simp [InverterWrapper.detect_devices, hs]
  · simp [InverterWrapper.DetectDevices, h]

/-- Witness for C5 at a concrete initialized session where the native
detection answers success. -/
theorem C5_detect_status_mapping_witness :
    st1.initFlag = true ∧
    (InverterWrapper.DetectDevices envW st1 none).res = Except.ok true := by
  have h := C5_detect_status_mapping envW st1 none rfl
  exact ⟨rfl, h.2.2.1 rfl⟩

/-- C4: Initialize succeeds exactly when the native enumeration reports
at least one driver and at least one of the (up to 10) retained drivers
switches online; the no-drivers case and the none-online case fail with
their distinct errors; starting from an uninitialized session the
initialized flag becomes true exactly on success. -/
theorem C4_initialize_success_conditions (env : NativeEnv) (st : SessionState)
    (cfg : String) :
    ((InverterWrapper.Initialize env st cfg).res = .ok true ↔
      env.masterInitCount cfg ≠ 0 ∧
        ∃ d ∈ env.masterGetDriver.take 10, env.setDriverOnlineOk d = true) ∧
    (env.masterInitCount cfg = 0 →
      (InverterWrapper.Initialize env st cfg).res = .error "No YASDI drivers found") ∧
    (env.masterInitCount cfg ≠ 0 →
      (∀ d ∈ env.masterGetDriver.take 10, env.setDriverOnlineOk d = false) →
      (InverterWrapper.Initialize env st cfg).res = .error "No drivers could be set online") ∧
    (st.initFlag = false →
      ((InverterWrapper.Initialize env st cfg).st.initFlag = true ↔
        (InverterWrapper.Initialize env st cfg).res = .ok true)) := by
  by_cases h0 : env.masterInitCount cfg = 0
  · refine ⟨?_, ?_, ?_, ?_⟩
    · simp [InverterWrapper.Initialize, h0]
    · intro _
      simp [InverterWrapper.Initialize, h0]
    · intro hne _
      exact absurd h0 hne
    · intro hf
      simp [InverterWrapper.Initialize, h0, hf]
  · cases hon : (env.masterGetDriver.take 10).any (fun d => env.setDriverOnlineOk d)
    · refine ⟨?_, ?_, ?_, ?_⟩
      · constructor
        · intro hres
          simp [InverterWrapper.Initialize, h0, hon] at hres
        · rintro ⟨-, d, hd, hdon⟩
          have hany : (env.masterGetDriver.take 10).any
              (fun d => env.setDriverOnlineOk d) = true :=
            List.any_eq_true.mpr ⟨d, hd, hdon⟩
          rw [hon] at hany
          exact absurd hany (by simp)
      · intro hz
        exact absurd hz h0
      · intro _ _
        simp [InverterWrapper.Initialize, h0, hon]
      · intro hf
        simp [InverterWrapper.Initialize, h0, hon, hf]
    · refine ⟨?_, ?_, ?_, ?_⟩
      · constructor
        · intro _
          refine ⟨h0, ?_⟩
          rcases List.any_eq_true.mp hon with ⟨d, hd, hdon⟩
          exact ⟨d, hd, hdon⟩
        · intro _
          simp [InverterWrapper.Initialize, h0, hon]
      · intro hz
        exact absurd hz h0
      · intro _ hall
        rcases List.any_eq_true.mp hon with ⟨d, hd, hdon⟩
        rw [hall d hd] at hdon
        exact absurd hdon (by simp)
      · intro hf
        simp [InverterWrapper.Initialize, h0, hon]

/-- Witness for C4: a concrete environment with one driver that goes
online makes Initialize succeed and set the flag. -/
theorem C4_initialize_success_conditions_witness :
    (InverterWrapper.Initialize envW st0 "yasdi.ini").res = Except.ok true ∧
    (InverterWrapper.Initialize envW st0 "yasdi.ini").st.initFlag = true := by
  have h := C4_initialize_success_conditions envW st0 "yasdi.ini"
  have hres : (InverterWrapper.Initialize envW st0 "yasdi.ini").res = Except.ok true :=
    h.1.mpr ⟨by decide, 3, by decide, by decide⟩
  exact ⟨hres, (h.2.2.2 rfl).mpr hres⟩

/-- C2: when setChannelValue resolves the channel, the range read
succeeds with [min, max], and the value lies outside that range, the
native write is never issued and the operation returns a
success-false record with the out-of-range error, the
YE_VALUE_NOT_VALID code, and the observed range echoed exactly. -/
theorem C2_out_of_range_short_circuits (env : NativeEnv) (st : SessionState)
    (dh : Nat) (cn : String) (v mn mx : Rat) (hinit : st.initFlag = true)
    (hfound : (InverterWrapper.find_channel_handle env dh cn).1 ≠ 0)
    (hrange : env.channelValRange (InverterWrapper.find_channel_handle env dh cn).1 =
      some (mn, mx))
    (hout : v < mn ∨ v > mx) :
    (InverterWrapper.SetChannelValue env st dh cn v).res =
      .ok { success := false, code := YStatus.YE_VALUE_NOT_VALID
          , error := some "Value out of range", validRange := some (mn, mx) } ∧
    ∀ x ∈ (InverterWrapper.SetChannelValue env st dh cn v).calls,
      ∀ ch d w, x ≠ NCall.writeChannel ch d w := by
  constructor
  · simp [InverterWrapper.SetChannelValue, hinit, hfound, hrange, hout]
  · intro x hx ch d w
    simp [InverterWrapper.SetChannelValue, hinit, hfound, hrange, hout] at hx
    rcases hx with hx | hx
    · rcases find_channel_handle_calls_shape env dh cn x hx with ⟨d2, k2, rfl⟩ | ⟨c2, rfl⟩ <;>
        simp
    · subst hx
      simp

/-- Witness for C2: channel Pac has range [0, 100] and the requested
value 200 is rejected locally. -/
theorem C2_out_of_range_short_circuits_witness :
    (InverterWrapper.find_channel_handle envW 1 "Pac").1 ≠ 0 ∧
    (InverterWrapper.SetChannelValue envW st1 1 "Pac" 200).res =
      Except.ok { success := false, code := YStatus.YE_VALUE_NOT_VALID
                , error := some "Value out of range", validRange := some (0, 100) } := by
  have hfound : (InverterWrapper.find_channel_handle envW 1 "Pac").1 ≠ 0 := by decide
  have h := C2_out_of_range_short_circuits envW st1 1 "Pac" 200 0 100 rfl hfound rfl
    (Or.inr (by decide))
  exact ⟨hfound, h.1⟩

/-- C8: when the write path proceeds (value in range, or range read
failed), the result carries the raw native status in code, success
holds exactly for the native success status, and each named failure
status maps to its distinct message, any other failure status to the
unknown-error message; the native write call is issued. -/
theorem C8_write_status_translation (env : NativeEnv) (st : SessionState)
    (dh : Nat) (cn : String) (v : Rat) (hinit : st.initFlag = true)
    (hfound : (InverterWrapper.find_channel_handle env dh cn).1 ≠ 0)
    (hpath : env.channelValRange (InverterWrapper.find_channel_handle env dh cn).1 = none ∨
      ∃ mn mx, env.channelValRange (InverterWrapper.find_channel_handle env dh cn).1 =
        some (mn, mx) ∧ ¬(v < mn ∨ v > mx)) :
    (InverterWrapper.SetChannelValue env st dh cn v).res =
      .ok (InverterWrapper.set_write env
        (InverterWrapper.find_channel_handle env dh cn).1 dh v) ∧
    NCall.writeChannel (InverterWrapper.find_channel_handle env dh cn).1 dh v ∈
      (InverterWrapper.SetChannelValue env st dh cn v).calls ∧
    ∀ ch dev w,
      (InverterWrapper.set_write env ch dev w).code = env.setChannelValueStatus ch dev w ∧
      (InverterWrapper.set_write env ch dev w).validRange = none ∧
      ((InverterWrapper.set_write env ch dev w).success = true ↔
        env.setChannelValueStatus ch dev w = YStatus.YE_OK) ∧
      (env.setChannelValueStatus ch dev w = YStatus.YE_OK →
        (InverterWrapper.set_write env ch dev w).error = none) ∧
      (env.setChannelValueStatus ch dev w = YStatus.INVALID_HANDLE →
        (InverterWrapper.set_write env ch dev w).error = some "Invalid channel handle") ∧
      (env.setChannelValueStatus ch dev w = YStatus.YE_SHUTDOWN →
        (InverterWrapper.set_write env ch dev w).error = some "YASDI is in shutdown mode") ∧
      (env.setChannelValueStatus ch dev w = YStatus.YE_TIMEOUT →
        (InverterWrapper.set_write env ch dev w).error =
          some "Device did not respond (timeout)") ∧
      (env.setChannelValueStatus ch dev w = YStatus.YE_VALUE_NOT_VALID →
        (InverterWrapper.set_write env ch dev w).error =
          some "Channel value not within valid range") ∧
      (env.setChannelValueStatus ch dev w = YStatus.YE_NO_ACCESS_RIGHTS →
        (InverterWrapper.set_write env ch dev w).error =
          some "Not enough access rights to write to channel") ∧
      (env.setChannelValueStatus ch dev w ≠ YStatus.YE_OK →
        env.setChannelValueStatus ch dev w ≠ YStatus.INVALID_HANDLE →
        env.setChannelValueStatus ch dev w ≠ YStatus.YE_SHUTDOWN →
        env.setChannelValueStatus ch dev w ≠ YStatus.YE_TIMEOUT →
        env.setChannelValueStatus ch dev w ≠ YStatus.YE_VALUE_NOT_VALID →
        env.setChannelValueStatus ch dev w ≠ YStatus.YE_NO_ACCESS_RIGHTS →
        (InverterWrapper.set_write env ch dev w).error = some "Unknown error") := by
  refine ⟨?_, ?_, ?_⟩
  · rcases hpath with hr | ⟨mn, mx, hr, hno⟩
    · simp [InverterWrapper.SetChannelValue, hinit, hfound, hr]
    · simp [InverterWrapper.SetChannelValue, hinit, hfound, hr, hno]
  · rcases hpath with hr | ⟨mn, mx, hr, hno⟩
    · simp [InverterWrapper.SetChannelValue, hinit, hfound, hr]
    · simp [InverterWrapper.SetChannelValue, hinit, hfound, hr, hno]
  · intro ch dev w
    rcases hs : env.setChannelValueStatus ch dev w with
      _ | _ | _ | _ | _ | _ | _ | _ | code <;>
      simp [InverterWrapper.set_write, hs]

/-- Witness for C8: the native write answers a timeout status for an
in-range value, surfaced with the timeout message. -/
theorem C8_write_status_translation_witness :
    (InverterWrapper.SetChannelValue envW st1 1 "Pac" 50).res =
      Except.ok { success := false, code := YStatus.YE_TIMEOUT
                , error := some "Device did not respond (timeout)", validRange := none } := by
  have hfound : (InverterWrapper.find_channel_handle envW 1 "Pac").1 ≠ 0 := by decide
  have h := C8_write_status_translation envW st1 1 "Pac" 50 rfl hfound
    (Or.inr ⟨0, 100, rfl, by decide⟩)
  rw [h.1]
  rfl

theorem find_channel_handle_fst (env : NativeEnv) (dh : Nat) (cn : String) :
    (InverterWrapper.find_channel_handle env dh cn).1 =
      (InverterWrapper.findLoop env cn
        ((env.channelHandles dh ChanKind.ALLCHANNELS).take 500)).1 := by
  by_cases hlen : ((env.channelHandles dh ChanKind.ALLCHANNELS).take 500).length < 1
  · have hnil : (env.channelHandles dh ChanKind.ALLCHANNELS).take 500 = [] := by
      cases hE : (env.channelHandles dh ChanKind.ALLCHANNELS).take 500
      · rfl
      · rw [hE] at hlen
        simp at hlen
    rw [InverterWrapper.find_channel_handle, if_pos hlen, hnil]
    rfl
  · rw [InverterWrapper.find_channel_handle, if_neg hlen]

/-- C7: find_channel_handle scans the full (ALLCHANNELS) enumeration
and returns the handle of the first channel whose successfully read
name equals the requested name exactly (case-sensitive, full-string);
when no enumerated channel name matches exactly it returns the
not-found sentinel, so no partial or case-insensitive match ever yields
a handle. -/
theorem C7_find_channel_exact_match (env : NativeEnv) (dh : Nat) (cn : String) :
    ((∀ ch ∈ (env.channelHandles dh ChanKind.ALLCHANNELS).take 500,
        env.channelName ch ≠ some cn) →
      (InverterWrapper.find_channel_handle env dh cn).1 = 0) ∧
    (∀ l1 c l2, (env.channelHandles dh ChanKind.ALLCHANNELS).take 500 = l1 ++ c :: l2 →
      env.channelName c = some cn →
      (∀ ch ∈ l1, env.channelName ch ≠ some cn) →
      (InverterWrapper.find_channel_handle env dh cn).1 = c) := by
  constructor
  · intro hno
    rw [find_channel_handle_fst]
    exact findLoop_fst_no_match env cn _ hno
  · intro l1 c l2 hsplit hc hfirst
    rw [find_channel_handle_fst, hsplit]
    exact findLoop_fst_first env cn l1 c l2 hfirst hc

/-- Witness for C7: the single channel named Pac is found at its
enumerated handle, and querying a name that matches no channel (here
only case-insensitively) yields the sentinel. -/
theorem C7_find_channel_exact_match_witness :
    (InverterWrapper.find_channel_handle envW 1 "Pac").1 = 7 ∧
    (InverterWrapper.find_channel_handle envW 1 "pac").1 = 0 := by
  have h1 := (C7_find_channel_exact_match envW 1 "Pac").2 [] 7 []
    (by decide) (by decide) (by decide)
  have h2 := (C7_find_channel_exact_match envW 1 "pac").1 (by decide)
  exact ⟨h1, h2⟩

/-- C10: the sentinel 0 is returned both when the channel enumeration
itself comes back empty and when enumeration succeeds but no name
matches, and in both situations getChannelInfo and setChannelValue
surface the identical Channel-not-found error: the caller cannot tell
an enumeration failure from a nonexistent channel. -/
theorem C10_sentinel_conflates_enumeration_failure (env1 env2 : NativeEnv)
    (sa sb : SessionState) (dh1 dh2 : Nat) (nm1 nm2 : String) (v : Rat)
    (h1 : env1.channelHandles dh1 ChanKind.ALLCHANNELS = [])
    (h2 : ∀ ch ∈ (env2.channelHandles dh2 ChanKind.ALLCHANNELS).take 500,
      env2.channelName ch ≠ some nm2)
    (hne : (env2.channelHandles dh2 ChanKind.ALLCHANNELS).take 500 ≠ [])
    (hi1 : sa.initFlag = true) (hi2 : sb.initFlag = true) :
    (InverterWrapper.find_channel_handle env1 dh1 nm1).1 = 0 ∧
    (InverterWrapper.find_channel_handle env2 dh2 nm2).1 = 0 ∧
    (InverterWrapper.GetChannelInfo env1 sa dh1 nm1).res = .error "Channel not found" ∧
    (InverterWrapper.GetChannelInfo env2 sb dh2 nm2).res = .error "Channel not found" ∧
    (InverterWrapper.SetChannelValue env1 sa dh1 nm1 v).res = .error "Channel not found" ∧
    (InverterWrapper.SetChannelValue env2 sb dh2 nm2 v).res = .error "Channel not found" := by
  have f1 : (InverterWrapper.find_channel_handle env1 dh1 nm1).1 = 0 := by
    rw [find_channel_handle_fst, h1]
    rfl
  have f2 : (InverterWrapper.find_channel_handle env2 dh2 nm2).1 = 0 := by
    rw [find_channel_handle_fst]
    exact findLoop_fst_no_match env2 nm2 _ h2
  refine ⟨f1, f2, ?_, ?_, ?_, ?_⟩
  · simp [InverterWrapper.GetChannelInfo, hi1, f1]
  · simp [InverterWrapper.GetChannelInfo, hi2, f2]
  · simp [InverterWrapper.SetChannelValue, hi1, f1]
  · simp [InverterWrapper.SetChannelValue, hi2, f2]

/-- Witness for C10 at two concrete environments: an empty enumeration
and a nonempty enumeration without a matching name. -/
theorem C10_sentinel_conflates_enumeration_failure_witness :
    (InverterWrapper.GetChannelInfo envEmpty st1 1 "Pac").res =
      Except.error "Channel not found" ∧
    (InverterWrapper.GetChannelInfo envW st1 1 "Uac").res =
      Except.error "Channel not found" := by
  have h := C10_sentinel_conflates_enumeration_failure envEmpty envW st1 st1 1 1 "Pac" "Uac" 5
    (by decide) (by decide) (by decide) rfl rfl
  exact ⟨h.2.2.1, h.2.2.2.1⟩

/-- C9: device-name normalization replaces every space with an
underscore and nothing else: every entry of the device listing carries
the normalized raw native name, the normalized name has the same
length, holds an underscore exactly at the positions where the raw name
holds a space and the original character elsewhere, and the
transformation is deterministic. -/
theorem C9_device_name_normalization (env : NativeEnv) (p : Nat × String)
    (hp : p ∈ InverterWrapper.get_device_map env) :
    p.2 = InverterWrapper.normalizeDeviceName (env.deviceName p.1) ∧
    (∀ s : String, (InverterWrapper.normalizeDeviceName s).data =
      s.data.map (fun c => if c = ' ' then '_' else c)) ∧
    (∀ s : String, (InverterWrapper.normalizeDeviceName s).data.length = s.data.length) ∧
    (∀ s : String, ∀ i : Nat,
      (InverterWrapper.normalizeDeviceName s).data[i]? =
        (s.data[i]?).map (fun c => if c = ' ' then '_' else c)) ∧
    (∀ s t : String, s = t →
      InverterWrapper.normalizeDeviceName s = InverterWrapper.normalizeDeviceName t) := by
  have hdata : ∀ s : String, (InverterWrapper.normalizeDeviceName s).data =
      s.data.map (fun c => if c = ' ' then '_' else c) := by
    intro s
    rw [normalizeDeviceName_eq_map]
  refine ⟨get_device_map_val env p hp, hdata, ?_, ?_, ?_⟩
  · intro s
    rw [hdata s]
    exact List.length_map _ _
  · intro s i
    rw [hdata s]
    exact List.getElem?_map _ _ _
  · intro s t h
    rw [h]

/-- Witness for C9: the raw name WR46 012 is listed as WR46_012. -/
theorem C9_device_name_normalization_witness :
    (1, "WR46_012") ∈ InverterWrapper.get_device_map envW ∧
    "WR46_012" = InverterWrapper.normalizeDeviceName (envW.deviceName 1) := by
  have hnorm : InverterWrapper.normalizeDeviceName "WR46 012" = "WR46_012" := by
    rw [normalizeDeviceName_eq_map]
    decide
  have hp : (1, "WR46_012") ∈ InverterWrapper.get_device_map envW := by
    simp [InverterWrapper.get_device_map, InverterWrapper.mapInsert, envW, hnorm]
  exact ⟨hp, (C9_device_name_normalization envW (1, "WR46_012") hp).1⟩

/-- C6: on a device whose spot enumeration yields channels with
distinct successfully read names, if exactly one channel's value read
fails and every other channel's reads succeed, the poll returns exactly
K−1 entries with the failing channel's name absent, and getDeviceData
still succeeds overall; a channel whose name read fails is likewise
skipped without aborting the poll. -/
theorem C6_single_channel_failure_skipped (env : NativeEnv) (dh : Nat)
    (l1 l2 : List Nat) (cj : Nat)
    (hsplit : (env.channelHandles dh ChanKind.SPOTCHANNELS).take 500 = l1 ++ cj :: l2)
    (hnames : ∀ ch ∈ l1 ++ cj :: l2, (env.channelName ch).isSome = true)
    (hnodup : ((l1 ++ cj :: l2).map env.channelName).Nodup)
    (hjfail : env.channelValue cj dh 5 = none)
    (hok : ∀ ch ∈ l1 ++ l2, (env.channelValue ch dh 5).isSome = true) :
    (InverterWrapper.fetch_channel_data env dh).1.length = (l1 ++ cj :: l2).length - 1 ∧
    (∀ d ∈ (InverterWrapper.fetch_channel_data env dh).1,
      env.channelName cj ≠ some d.name) ∧
    (∀ st : SessionState, st.initFlag = true →
      (InverterWrapper.GetDeviceData env st dh).res =
        .ok (InverterWrapper.fetch_channel_data env dh).1) ∧
    (∀ ch rest, env.channelName ch = none →
      (InverterWrapper.fetchLoop env dh (ch :: rest)).1 =
        (InverterWrapper.fetchLoop env dh rest).1) := by
  obtain ⟨nmj, hnmj⟩ := Option.isSome_iff_exists.mp (hnames cj (by simp))
  have hmain : (InverterWrapper.fetch_channel_data env dh).1 =
      (InverterWrapper.fetchLoop env dh l1).1 ++ (InverterWrapper.fetchLoop env dh l2).1 := by
    have hstep : (InverterWrapper.fetchLoop env dh (cj :: l2)).1 =
        (InverterWrapper.fetchLoop env dh l2).1 := by
      simp [InverterWrapper.fetchLoop, hnmj, hjfail]
    simp only [InverterWrapper.fetch_channel_data, hsplit]
    rw [if_neg (by simp)]
    rw [fetchLoop_fst_append, hstep]
  have hl1 : ∀ ch ∈ l1, (env.channelName ch).isSome = true ∧
      (env.channelValue ch dh 5).isSome = true :=
    fun ch hch => ⟨hnames ch (by simp [hch]), hok ch (by simp [hch])⟩
  have hl2 : ∀ ch ∈ l2, (env.channelName ch).isSome = true ∧
      (env.channelValue ch dh 5).isSome = true :=
    fun ch hch => ⟨hnames ch (by simp [hch]), hok ch (by simp [hch])⟩
  refine ⟨?_, ?_, ?_, ?_⟩
  · rw [hmain]
    rw [List.length_append, fetchLoop_fst_length env dh l1 hl1,
      fetchLoop_fst_length env dh l2 hl2]
    simp
  · intro d hd hcontra
    rw [hmain] at hd
    have hmem : ∃ ch ∈ l1 ++ l2, env.channelName ch = some d.name := by
      rcases List.mem_append.mp hd with hd | hd
      · rcases fetchLoop_fst_mem_name env dh l1 d hd with ⟨ch, hch, hname⟩
        exact ⟨ch, by simp [hch], hname⟩
      · rcases fetchLoop_fst_mem_name env dh l2 d hd with ⟨ch, hch, hname⟩
        exact ⟨ch, by simp [hch], hname⟩
    rcases hmem with ⟨ch, hch, hname⟩
    have hmapn : (env.channelName cj :: ((l1 ++ l2).map env.channelName)).Nodup := by
      have := hnodup
      rw [List.map_append, List.map_cons] at this
      rw [List.map_append]
      exact List.nodup_middle.mp this
    have hnotin : env.channelName cj ∉ (l1 ++ l2).map env.channelName :=
      (List.nodup_cons.mp hmapn).1
    exact hnotin (by
      rw [hcontra, ← hname]
      exact List.mem_map_of_mem env.channelName hch)
  · intro st hst
    simp [InverterWrapper.GetDeviceData, hst]
  · intro ch rest hn
    simp [InverterWrapper.fetchLoop, hn]

/-- Witness for C6: two spot channels Pac and Uac where the value read
of Uac fails; the poll returns one entry and no overall error. -/
theorem C6_single_channel_failure_skipped_witness :
    (InverterWrapper.fetch_channel_data envTwo 1).1.length = 1 ∧
    (InverterWrapper.GetDeviceData envTwo st1 1).res =
      Except.ok (InverterWrapper.fetch_channel_data envTwo 1).1 := by
  have h := C6_single_channel_failure_skipped envTwo 1 [7] [] 8 (by decide) (by decide)
    (by decide) (by decide) (by decide)
  exact ⟨h.1, h.2.2.1 st1 rfl⟩

end SMA
